import Mathlib

/-!
Verification of the credential & token lifecycle subsystem of the minwada
backend (`src/backend/src`), shallowly embedded in Lean 4.

The relational store is modelled as explicit lists of rows (`DB`); each
handler is a pure function threading the store.  Library primitives whose
implementations live outside the repository (the argon2 digest, the
jsonwebtoken `decode`, SHA-256 refresh-token hashing, UUID generation and
parsing, the random token generators, and the email transport) are taken as
explicit function or value parameters of the embedded handlers, exactly at
the call sites where the source invokes them; everything the repository
itself does with their results is translated statement by statement.
Timestamps are `Int` seconds; `NOW()` is the explicit `now` parameter.
-/

namespace Minwada

/-! ## Data model (database rows)

`users`, `user_credentials` and `refresh_tokens` as selected by the
handlers.  User ids are abstracted to `Nat` (the source uses UUIDs).
-/

/-- The argon2 PHC-encoded string stored in `user_credentials.password_hash`.
`PasswordHash::new` in `verify_password` (src/backend/src/auth.rs:69) either
parses it into a salt/digest pair or fails; we model the stored string in
this parsed-or-malformed form, with the inner argon2 digest function left
abstract. -/
inductive StoredHash where
  | phc (salt : String) (digest : String)
  | malformed (raw : String)
deriving Repr, DecidableEq

/-- A row of the `users` table (fields used by the auth flows). -/
structure UserRow where
  id : Nat
  username : String
  email : String
  display_name : Option String
  avatar_url : Option String
  email_verified : Bool
  email_verified_at : Option Int
  verification_token : Option String
  verification_token_expires_at : Option Int
  password_reset_token : Option String
  password_reset_token_expires_at : Option Int
deriving Repr, DecidableEq

/-- A row of the `user_credentials` table. -/
structure CredentialRow where
  user_id : Nat
  password_hash : StoredHash
  salt : String
deriving Repr, DecidableEq

/-- A row of the `refresh_tokens` table. -/
structure RefreshTokenRow where
  id : Nat
  user_id : Nat
  token_hash : String
  expires_at : Int
  revoked : Bool
deriving Repr, DecidableEq

/-- The relational store: the three tables touched by the auth subsystem,
plus a counter supplying fresh `refresh_tokens.id` values (the source lets
Postgres generate them). -/
structure DB where
  users : List UserRow
  credentials : List CredentialRow
  refresh_tokens : List RefreshTokenRow
  next_rt_id : Nat
deriving Repr, DecidableEq

/-! ## Errors (src/backend/src/error.rs) -/

/-- Error kinds of `jsonwebtoken::errors::Error` relevant to validation:
expiry in the past, bad signature, or structural malformation. -/
inductive JwtError where
  | ExpiredSignature
  | InvalidSignature
  | Malformed (msg : String)
deriving Repr, DecidableEq

/-- `AppError` from src/backend/src/error.rs (payloads abstracted to the
message strings the source carries). -/
inductive AppError where
  | Database (msg : String)
  | Jwt (e : JwtError)
  | Argon2 (msg : String)
  | Validation (msg : String)
  | Unauthorized (msg : String)
  | Forbidden
  | NotFound
  | Conflict (msg : String)
  | BadRequest (msg : String)
  | Internal (msg : String)
  | NotImplemented (msg : String)
  | Config (msg : String)
  | UuidParse (msg : String)
deriving Repr, DecidableEq

/-- The `IntoResponse` impl for `AppError` (src/backend/src/error.rs:77-154):
the HTTP status code and client-visible message each error kind surfaces. -/
def errorResponse : AppError → Nat × String
  | .Database _ => (500, "Database error occurred")
  | .Jwt _ => (401, "Invalid token")
  | .Argon2 _ => (500, "Password hashing error")
  | .Validation msg => (400, "Validation errors: " ++ msg)
  | .Unauthorized msg => (401, msg)
  | .Forbidden => (403, "Forbidden")
  | .NotFound => (404, "Resource not found")
  | .Conflict msg => (409, msg)
  | .BadRequest msg => (400, msg)
  | .Internal _ => (500, "Internal server error")
  | .NotImplemented msg => (501, msg)
  | .Config _ => (500, "Configuration error")
  | .UuidParse _ => (400, "Invalid UUID format")

/-! ## Credential hasher (src/backend/src/auth.rs, `mod password`)

`digest` abstracts the argon2 digest computation
(`Argon2::default().hash_password` / `verify_password` internals): it maps a
password and a salt to the raw digest.  `hash_password` draws a fresh salt
from the RNG; the salt is passed in explicitly.
-/

/-- `hash_password` (src/backend/src/auth.rs:59-66): hashes the password
with a per-call salt and returns the PHC-encoded hash plus the salt. -/
def hash_password (digest : String → String → String) (salt : String)
    (password : String) : StoredHash × String :=
  (StoredHash.phc salt (digest password salt), salt)

/-- `verify_password` (src/backend/src/auth.rs:68-74): parse the stored
hash (`PasswordHash::new(hash)?` — failure becomes `AppError::Argon2`),
then recompute the digest over the stored salt and compare. -/
def verify_password (digest : String → String → String) (password : String)
    (hash : StoredHash) : Except AppError Bool :=
  match hash with
  | .malformed _ => .error (.Argon2 "invalid password hash encoding")
  | .phc salt dg => .ok (digest password salt == dg)

/-! ## Access token codec (src/backend/src/auth.rs, `mod jwt`) -/

/-- The JWT claims payload (src/backend/src/models/auth.rs `Claims`). -/
structure Claims where
  sub : String
  username : String
  email : String
  exp : Nat
  iat : Nat
  iss : String
deriving Repr, DecidableEq

/-- `verify_jwt_token` (src/backend/src/auth.rs:38-46): run the
jsonwebtoken `decode` (abstracted as `decode`) and wrap any of its errors —
expired, bad signature, or malformed alike — as `AppError::Jwt`. -/
def verify_jwt_token (decode : String → String → Except JwtError Claims)
    (token : String) (secret : String) : Except AppError Claims :=
  match decode token secret with
  | .ok c => .ok c
  | .error e => .error (.Jwt e)

/-! ## Refresh token hashing (src/backend/src/utils/token_hash.rs)

`hash_refresh_token` is a SHA-256 digest base64-encoded; the handlers below
take it as a parameter `hashRT : String → String`.  `verify_refresh_token`
recomputes and compares. -/

/-- `verify_refresh_token` (src/backend/src/utils/token_hash.rs:15-18). -/
def verify_refresh_token (hashRT : String → String) (token : String)
    (hash : String) : Bool :=
  hashRT token == hash

/-! ## Response shapes (src/backend/src/models/auth.rs) -/

/-- `UserInfo` as embedded in `AuthResponse`. -/
structure UserInfo where
  id : Nat
  username : String
  email : String
  display_name : Option String
  avatar_url : Option String
  email_verified : Bool
deriving Repr, DecidableEq

/-- `AuthResponse` returned by register/login/refresh. -/
structure AuthResponse where
  access_token : String
  refresh_token : String
  token_type : String
  expires_in : Int
  user : UserInfo
deriving Repr, DecidableEq

/-- Build the `UserInfo` block the handlers return. -/
def userInfoOf (u : UserRow) : UserInfo :=
  { id := u.id, username := u.username, email := u.email,
    display_name := u.display_name, avatar_url := u.avatar_url,
    email_verified := u.email_verified }

/-! ## Refresh endpoint (src/backend/src/handlers/auth/refresh_token.rs)

This is the handler wired at `/api/auth/refresh` (src/backend/src/routes.rs:41
via src/backend/src/handlers/auth/mod.rs).  Parameters standing for effects
outside the store: `hashRT` (SHA-256+base64 of token_hash.rs), `now`
(`NOW()`), `access_token` (the freshly minted JWT), `new_raw` (the fresh
`generate_secure_token()` output).
-/

/-- The row filter of the redemption SELECT
(`WHERE token_hash = $1 AND revoked = false AND expires_at > NOW()`). -/
def redeemableRow (hash : String) (now : Int) (r : RefreshTokenRow) : Bool :=
  r.token_hash == hash && r.revoked == false && decide (now < r.expires_at)

/-- `refresh_token` (src/backend/src/handlers/auth/refresh_token.rs:29-105):
hash the presented token; find a non-revoked, unexpired row; load the user;
then in one transaction revoke the found row (by id) and insert a
replacement row expiring in 7 days; answer with the new raw token. -/
def refresh_token (hashRT : String → String) (now : Int)
    (access_token new_raw : String) (db : DB) (raw : String) :
    Except AppError (AuthResponse × DB) :=
  let token_hash := hashRT raw
  match db.refresh_tokens.find? (redeemableRow token_hash now) with
  | none => .error (.Unauthorized "Invalid refresh token")
  | some rt =>
    match db.users.find? (fun u => u.id == rt.user_id) with
    | none => .error (.Database "no rows returned by a query that expected to return at least one row")
    | some user =>
      let new_hash := hashRT new_raw
      let revoked := db.refresh_tokens.map fun r =>
        if r.id == rt.id then { r with revoked := true } else r
      let newRow : RefreshTokenRow :=
        { id := db.next_rt_id, user_id := user.id, token_hash := new_hash,
          expires_at := now + 7 * 86400, revoked := false }
      let db' : DB :=
        { db with refresh_tokens := revoked ++ [newRow],
                  next_rt_id := db.next_rt_id + 1 }
      .ok ({ access_token := access_token, refresh_token := new_raw,
             token_type := "Bearer", expires_in := 900,
             user := userInfoOf user }, db')

/-! ## Logout (src/backend/src/handlers/auth/logout.rs) -/

/-- `logout` (src/backend/src/handlers/auth/logout.rs:24-40): hash the
presented token, mark every matching row revoked
(`UPDATE refresh_tokens SET revoked = true WHERE token_hash = $1`), and
always answer with the success message. -/
def logout (hashRT : String → String) (db : DB) (raw : String) :
    Except AppError String × DB :=
  let token_hash := hashRT raw
  let rts := db.refresh_tokens.map fun r =>
    if r.token_hash == token_hash then { r with revoked := true } else r
  (.ok "Logged out successfully", { db with refresh_tokens := rts })

/-! ## Login (src/backend/src/handlers/auth/login.rs)

`valid` abstracts `payload.validate()` (email format, non-empty password);
`digest` the argon2 digest; `access_token`/`refresh_raw` the minted JWT and
the fresh `generate_secure_token()` output. -/

/-- `LoginRequest` (src/backend/src/models/auth.rs). -/
structure LoginRequest where
  email : String
  password : String
deriving Repr, DecidableEq

/-- `login` (src/backend/src/handlers/auth/login.rs:28-97). -/
def login (digest : String → String → String) (hashRT : String → String)
    (valid : Bool) (now : Int) (access_token refresh_raw : String)
    (db : DB) (payload : LoginRequest) :
    Except AppError AuthResponse × DB :=
  if valid = false then (.error (.Validation "Invalid email address"), db)
  else
    match db.users.find? (fun u => u.email == payload.email) with
    | none => (.error (.Unauthorized "Invalid credentials"), db)
    | some user =>
      match db.credentials.find? (fun c => c.user_id == user.id) with
      | none => (.error (.Unauthorized "Invalid credentials"), db)
      | some credentials =>
        match verify_password digest payload.password credentials.password_hash with
        | .error e => (.error e, db)
        | .ok false => (.error (.Unauthorized "Invalid credentials"), db)
        | .ok true =>
          let refresh_token_hash := hashRT refresh_raw
          let newRow : RefreshTokenRow :=
            { id := db.next_rt_id, user_id := user.id,
              token_hash := refresh_token_hash,
              expires_at := now + 7 * 86400, revoked := false }
          (.ok { access_token := access_token, refresh_token := refresh_raw,
                 token_type := "Bearer", expires_in := 900,
                 user := userInfoOf user },
           { db with refresh_tokens := db.refresh_tokens ++ [newRow],
                     next_rt_id := db.next_rt_id + 1 })

/-! ## Registration (src/backend/src/handlers/auth/register.rs)

This is the handler wired at `/api/auth/register`.  It issues four separate
units of work against the store:
1. a transaction inserting the `users` row and the `user_credentials` row
   (lines 51-81, commit at 81);
2. a second transaction writing the verification token onto the user row
   (lines 84-86, via `email_sender::start_verification_flow` →
   `email_verification::create_verification_token`);
3. a detached task sending the verification email (ignored here);
4. a refresh-token INSERT executed directly on the pool, outside any
   transaction (lines 109-118).

`RegFailures` injects a database failure at each INSERT/UPDATE statement; a
failure inside an uncommitted transaction rolls the transaction back. -/

/-- `RegisterRequest` (src/backend/src/models/auth.rs). -/
structure RegisterRequest where
  username : String
  email : String
  password : String
  display_name : Option String
deriving Repr, DecidableEq

/-- Failure-injection points for the store statements `register` issues. -/
structure RegFailures where
  user_insert : Bool
  cred_insert : Bool
  verif_update : Bool
  rt_insert : Bool
deriving Repr, DecidableEq

/-- `register` (src/backend/src/handlers/auth/register.rs:28-137).
`valid` abstracts `payload.validate()`; `new_user_id` the id Postgres
assigns; `salt`, `verif_token`, `access_token`, `refresh_raw` the fresh
random values; `verif_hours` the verification-token TTL (default 24).
Returns the HTTP status+response (201 on success) and the resulting store
state, which survives a late failure. -/
def register (digest : String → String → String) (hashRT : String → String)
    (f : RegFailures) (valid : Bool) (now : Int) (new_user_id : Nat)
    (salt verif_token access_token refresh_raw : String) (verif_hours : Int)
    (db : DB) (payload : RegisterRequest) :
    Except AppError (Nat × AuthResponse) × DB :=
  if valid = false then (.error (.Validation "Invalid value"), db)
  else if db.users.any (fun u => u.email == payload.email || u.username == payload.username) then
    (.error (.Conflict "User already exists"), db)
  else
    let (password_hash, s) := hash_password digest salt payload.password
    -- transaction 1: INSERT users; INSERT user_credentials; COMMIT
    if f.user_insert then (.error (.Database "user insert failed"), db)
    else
      let user : UserRow :=
        { id := new_user_id, username := payload.username,
          email := payload.email, display_name := payload.display_name,
          avatar_url := none, email_verified := false,
          email_verified_at := none, verification_token := none,
          verification_token_expires_at := none,
          password_reset_token := none,
          password_reset_token_expires_at := none }
      if f.cred_insert then (.error (.Database "credential insert failed"), db)
      else
        let cred : CredentialRow :=
          { user_id := user.id, password_hash := password_hash, salt := s }
        let db1 : DB := { db with users := db.users ++ [user],
                                  credentials := db.credentials ++ [cred] }
        -- transaction 2: write the verification token onto the user row
        if f.verif_update then (.error (.Database "verification token update failed"), db1)
        else
          let db2 : DB := { db1 with users := db1.users.map fun u =>
            if u.id == user.id then
              { u with verification_token := some verif_token,
                       verification_token_expires_at := some (now + verif_hours * 3600) }
            else u }
          -- refresh-token INSERT, directly on the pool (no transaction)
          if f.rt_insert then (.error (.Database "refresh token insert failed"), db2)
          else
            let newRow : RefreshTokenRow :=
              { id := db2.next_rt_id, user_id := user.id,
                token_hash := hashRT refresh_raw,
                expires_at := now + 7 * 86400, revoked := false }
            let db3 : DB := { db2 with refresh_tokens := db2.refresh_tokens ++ [newRow],
                                       next_rt_id := db2.next_rt_id + 1 }
            (.ok (201, { access_token := access_token,
                         refresh_token := refresh_raw,
                         token_type := "Bearer", expires_in := 900,
                         user := userInfoOf user }), db3)

/-! ## Out-of-band tokens

Email verification (src/backend/src/utils/email_verification.rs) and
password reset (src/backend/src/utils/password_reset.rs +
src/backend/src/handlers/auth/reset_password.rs). -/

/-- The row filter of the verification-consume SELECT
(`WHERE verification_token = $1 AND verification_token_expires_at > $2
AND email_verified_at IS NULL`); a NULL expiry never satisfies `>`. -/
def verifMatches (token : String) (now : Int) (u : UserRow) : Bool :=
  u.verification_token == some token
    && (match u.verification_token_expires_at with
        | some e => decide (now < e)
        | none => false)
    && u.email_verified_at == none

/-- `email_verification::verify_email`
(src/backend/src/utils/email_verification.rs:61-104): find a matching,
unexpired, not-yet-verified user; on match set `email_verified_at = now`,
`email_verified = true` and null both token fields, returning the user id;
otherwise fail with `BadRequest`. -/
def verify_email_consume (now : Int) (db : DB) (token : String) :
    Except AppError Nat × DB :=
  match db.users.find? (verifMatches token now) with
  | none => (.error (.BadRequest "無効または期限切れの検証トークンです"), db)
  | some u =>
    let users := db.users.map fun v =>
      if v.id == u.id then
        { v with email_verified_at := some now, email_verified := true,
                 verification_token := none,
                 verification_token_expires_at := none }
      else v
    (.ok u.id, { db with users := users })

/-- The row filter of the reset-token SELECT
(`WHERE password_reset_token = $1 AND password_reset_token_expires_at > $2`). -/
def resetMatches (token : String) (now : Int) (u : UserRow) : Bool :=
  u.password_reset_token == some token
    && (match u.password_reset_token_expires_at with
        | some e => decide (now < e)
        | none => false)

/-- `password_reset::verify_reset_token`
(src/backend/src/utils/password_reset.rs:61-84). -/
def verify_reset_token (now : Int) (db : DB) (token : String) :
    Except AppError Nat :=
  match db.users.find? (resetMatches token now) with
  | some u => .ok u.id
  | none => .error (.BadRequest "無効または期限切れのリセットトークンです")

/-- `reset_password` (src/backend/src/handlers/auth/reset_password.rs:34-89):
validate, verify the token, hash the new password, then in one transaction
overwrite the credential row and null the reset-token fields. -/
def reset_password (digest : String → String → String) (valid : Bool)
    (now : Int) (salt : String) (db : DB) (token new_password : String) :
    Except AppError String × DB :=
  if valid = false then (.error (.Validation "New password must be between 8 and 100 characters"), db)
  else
    match verify_reset_token now db token with
    | .error e => (.error e, db)
    | .ok user_id =>
      let (password_hash, s) := hash_password digest salt new_password
      let credentials := db.credentials.map fun c =>
        if c.user_id == user_id then
          { c with password_hash := password_hash, salt := s }
        else c
      let users := db.users.map fun u =>
        if u.id == user_id then
          { u with password_reset_token := none,
                   password_reset_token_expires_at := none }
        else u
      (.ok "パスワードが正常にリセットされました。新しいパスワードでログインしてください。",
       { db with users := users, credentials := credentials })

/-- `request_password_reset`
(src/backend/src/handlers/auth/request_password_reset.rs:30-104): validate;
look the user up by email; if found, write a fresh reset token and expiry
onto the row (committed), then send the email (`email_ok` abstracts the
transport outcome; a failure surfaces after the commit); in both the found
and not-found cases the success response carries the identical message. -/
def request_password_reset (valid : Bool) (email_ok : Bool) (now : Int)
    (reset_token : String) (reset_hours : Int) (db : DB) (email : String) :
    Except AppError String × DB :=
  if valid = false then (.error (.Validation "Invalid email address"), db)
  else
    match db.users.find? (fun u => u.email == email) with
    | some u =>
      let users := db.users.map fun v =>
        if v.id == u.id then
          { v with password_reset_token := some reset_token,
                   password_reset_token_expires_at := some (now + reset_hours * 3600) }
        else v
      let db' : DB := { db with users := users }
      if email_ok then
        (.ok "パスワードリセット用のメールを送信しました。メールに記載されたリンクからパスワードを再設定してください。", db')
      else (.error (.Internal "email send failed"), db')
    | none =>
      (.ok "パスワードリセット用のメールを送信しました。メールに記載されたリンクからパスワードを再設定してください。", db)

/-! ## Request authenticator (src/backend/src/middleware.rs) -/

/-- Header extraction (src/backend/src/middleware.rs:15-21): take the
`Authorization` header value if present and well-formed, and strip the
`Bearer ` scheme (`strip_prefix`, modelled as a character-level prefix
test plus dropping the scheme's 7 characters); any other shape yields
`none`. -/
def bearerToken (header : Option String) : Option String :=
  match header with
  | none => none
  | some h =>
    if "Bearer ".toList.isPrefixOf h.toList then some (h.drop 7) else none

/-- `auth_middleware` (src/backend/src/middleware.rs:7-38): extract the
bearer value (failing with `Unauthorized` before any token parsing);
validate it via `verify_jwt_token`; parse the subject as a UUID
(`parseUuid` abstracts `Uuid::parse_str`); load the user, failing with
`Unauthorized` if absent; otherwise attach the user and claims. -/
def auth_middleware (decode : String → String → Except JwtError Claims)
    (parseUuid : String → Option Nat) (secret : String) (db : DB)
    (header : Option String) : Except AppError (UserRow × Claims) :=
  match bearerToken header with
  | none => .error (.Unauthorized "Missing or invalid Authorization header")
  | some tok =>
    match verify_jwt_token decode tok secret with
    | .error e => .error e
    | .ok claims =>
      match parseUuid claims.sub with
      | none => .error (.UuidParse "invalid character")
      | some uid =>
        match db.users.find? (fun u => u.id == uid) with
        | none => .error (.Unauthorized "User not found")
        | some user => .ok (user, claims)

/-! ## Theorems -/

/-- C4: validating an access token that fails `decode` for any reason —
expired `exp`, corrupted signature, or malformed structure — yields the one
`AppError::Jwt` class, surfaced to the caller as 401 "Invalid token"; the
surfaced response is identical across all failure reasons, so "expired" and
"tampered" are indistinguishable. -/
theorem jwt_failures_single_error_class
    (decode : String → String → Except JwtError Claims)
    (token secret : String) (e : JwtError)
    (h : decode token secret = .error e) :
    verify_jwt_token decode token secret = .error (.Jwt e) ∧
    errorResponse (.Jwt e) = (401, "Invalid token") ∧
    ∀ e' : JwtError, errorResponse (.Jwt e) = errorResponse (.Jwt e') := by
  refine ⟨?_, rfl, fun e' => rfl⟩
  unfold verify_jwt_token
  rw [h]

/-- Witness for C4 at a decode failing with `ExpiredSignature`. -/
theorem jwt_failures_single_error_class_witness :
    verify_jwt_token (fun _ _ => .error .ExpiredSignature) "tok" "sec" =
      .error (.Jwt .ExpiredSignature) ∧
    errorResponse (.Jwt .ExpiredSignature) = (401, "Invalid token") ∧
    ∀ e' : JwtError, errorResponse (.Jwt .ExpiredSignature) = errorResponse (.Jwt e') :=
  jwt_failures_single_error_class (fun _ _ => .error .ExpiredSignature)
    "tok" "sec" .ExpiredSignature rfl

/-- C9: for every password `P` and salt, verifying `P` against the hash
returned by `hash_password` succeeds; and any password whose digest over
that salt differs (no digest collision — the deterministic content of
"with overwhelming probability") verifies to false. -/
theorem password_hash_verify_roundtrip
    (digest : String → String → String) (salt P : String) :
    verify_password digest P (hash_password digest salt P).1 = .ok true ∧
    ∀ Q : String, digest Q salt ≠ digest P salt →
      verify_password digest Q (hash_password digest salt P).1 = .ok false := by
  constructor
  · simp [verify_password, hash_password]
  · intro Q h
    simp [verify_password, hash_password, h]

/-- Witness for C9 with digest `P ++ salt`, `P = "password123"`,
`Q = "password124"`. -/
theorem password_hash_verify_roundtrip_witness :
    verify_password (fun p s => p ++ s) "password123"
      (hash_password (fun p s => p ++ s) "somesalt" "password123").1 = .ok true ∧
    ∀ Q : String, (fun p s => p ++ s) Q "somesalt" ≠ (fun p s => p ++ s) "password123" "somesalt" →
      verify_password (fun p s => p ++ s) Q
        (hash_password (fun p s => p ++ s) "somesalt" "password123").1 = .ok false :=
  password_hash_verify_roundtrip (fun p s => p ++ s) "somesalt" "password123"

/-- Revoking every row matching a hash is idempotent on each row. -/
theorem revokeByHash_idem (h : String) (r : RefreshTokenRow) :
    (fun r => if r.token_hash == h then { r with revoked := true } else r)
      ((fun r => if r.token_hash == h then { r with revoked := true } else r) r)
    = (fun r => if r.token_hash == h then { r with revoked := true } else r) r := by
  cases hc : r.token_hash == h <;> simp [hc]

/-- C10: `logout` always answers with the success message, and revocation
is idempotent: a second revocation of the same raw token leaves the store
exactly as after the first, and revoking a token matching no row leaves the
store unchanged. -/
theorem logout_idempotent (hashRT : String → String) (db : DB) (raw : String) :
    (logout hashRT db raw).1 = .ok "Logged out successfully" ∧
    logout hashRT (logout hashRT db raw).2 raw = logout hashRT db raw ∧
    ((∀ r ∈ db.refresh_tokens, r.token_hash ≠ hashRT raw) →
      (logout hashRT db raw).2 = db) := by
  refine ⟨rfl, ?_, ?_⟩
  · unfold logout
    simp only [List.map_map]
    congr 1
    · congr 1
      apply List.map_congr_left
      intro r _
      exact revokeByHash_idem (hashRT raw) r
  · intro hno
    show ({ db with refresh_tokens := db.refresh_tokens.map fun r =>
        if r.token_hash == hashRT raw then { r with revoked := true } else r } : DB) = db
    have h1 : (db.refresh_tokens.map fun r =>
        if r.token_hash == hashRT raw then { r with revoked := true } else r)
        = db.refresh_tokens := by
      have h2 := List.map_congr_left (l := db.refresh_tokens)
        (f := fun r => if r.token_hash == hashRT raw then { r with revoked := true } else r)
        (g := id) (fun r hr => by simp [hno r hr])
      simpa using h2
    rw [h1]

/-- Witness for C10 at a one-row store whose row does not match. -/
theorem logout_idempotent_witness :
    (logout (fun t => t) ⟨[], [], [⟨0, 1, "h1", 100, false⟩], 1⟩ "other").1 =
      .ok "Logged out successfully" ∧
    logout (fun t => t)
        (logout (fun t => t) ⟨[], [], [⟨0, 1, "h1", 100, false⟩], 1⟩ "other").2 "other" =
      logout (fun t => t) ⟨[], [], [⟨0, 1, "h1", 100, false⟩], 1⟩ "other" ∧
    ((∀ r ∈ (⟨[], [], [⟨0, 1, "h1", 100, false⟩], 1⟩ : DB).refresh_tokens,
        r.token_hash ≠ (fun t : String => t) "other") →
      (logout (fun t => t) ⟨[], [], [⟨0, 1, "h1", 100, false⟩], 1⟩ "other").2 =
        ⟨[], [], [⟨0, 1, "h1", 100, false⟩], 1⟩) :=
  logout_idempotent (fun t => t) ⟨[], [], [⟨0, 1, "h1", 100, false⟩], 1⟩ "other"

/-- C7: the request authenticator fails with `Unauthorized` whenever the
`Authorization` header is missing or not of the `Bearer <token>` scheme —
for every decode function, i.e. before any token parsing; with a valid
token whose subject names no existing user it fails with `Unauthorized`;
and otherwise it attaches the loaded user and the validated claims. -/
theorem auth_middleware_contract
    (decode : String → String → Except JwtError Claims)
    (parseUuid : String → Option Nat) (secret : String) (db : DB)
    (header : Option String) :
    ((header = none ∨
        ∃ h0, header = some h0 ∧ "Bearer ".toList.isPrefixOf h0.toList = false) →
      auth_middleware decode parseUuid secret db header =
        .error (.Unauthorized "Missing or invalid Authorization header")) ∧
    (∀ tok claims uid, bearerToken header = some tok →
      decode tok secret = .ok claims → parseUuid claims.sub = some uid →
      (db.users.find? (fun u => u.id == uid) = none →
        auth_middleware decode parseUuid secret db header =
          .error (.Unauthorized "User not found")) ∧
      (∀ user, db.users.find? (fun u => u.id == uid) = some user →
        auth_middleware decode parseUuid secret db header = .ok (user, claims))) := by
  constructor
  · intro hbad
    have hnone : bearerToken header = none := by
      rcases hbad with h | ⟨h0, rfl, hpre⟩
      · simp [bearerToken, h]
      · have hpre' : ¬ (['B', 'e', 'a', 'r', 'e', 'r', ' '] <+: h0.data) := by
          intro hc
          have hb : "Bearer ".toList.isPrefixOf h0.toList = true :=
            List.isPrefixOf_iff_prefix.mpr hc
          rw [hpre] at hb
          exact Bool.false_ne_true hb
        simp [bearerToken, hpre']
    simp [auth_middleware, hnone]
  · intro tok claims uid htok hdec hsub
    constructor
    · intro hfind
      simp [auth_middleware, htok, verify_jwt_token, hdec, hsub, hfind]
    · intro user hfind
      simp [auth_middleware, htok, verify_jwt_token, hdec, hsub, hfind]

/-- Witness for C7: at a concrete store and a well-formed `Bearer` header,
the authenticator attaches the loaded user and claims. -/
theorem auth_middleware_contract_witness :
    auth_middleware (fun _ _ => .ok ⟨"1", "alice", "a@x.com", 10, 0, "wadai-us"⟩)
        (fun _ => some 1) "sec"
        ⟨[⟨1, "alice", "a@x.com", none, none, false, none, none, none, none, none⟩], [], [], 0⟩
        (some "Bearer tok") =
      .ok (⟨1, "alice", "a@x.com", none, none, false, none, none, none, none, none⟩,
           ⟨"1", "alice", "a@x.com", 10, 0, "wadai-us"⟩) :=
  ((auth_middleware_contract (fun _ _ => .ok ⟨"1", "alice", "a@x.com", 10, 0, "wadai-us"⟩)
      (fun _ => some 1) "sec"
      ⟨[⟨1, "alice", "a@x.com", none, none, false, none, none, none, none, none⟩], [], [], 0⟩
      (some "Bearer tok")).2 "tok" ⟨"1", "alice", "a@x.com", 10, 0, "wadai-us"⟩ 1
      (by decide) rfl rfl).2
    ⟨1, "alice", "a@x.com", none, none, false, none, none, none, none, none⟩ rfl

/-- Unfolding the redemption row filter. -/
theorem redeemableRow_eq_true {h : String} {now : Int} {r : RefreshTokenRow} :
    redeemableRow h now r = true ↔
      r.token_hash = h ∧ r.revoked = false ∧ now < r.expires_at := by
  simp [redeemableRow, Bool.and_eq_true, and_assoc]

/-- The refresh endpoint rejects with `Unauthorized` whenever the lookup
finds no redeemable row. -/
theorem refresh_token_err (hashRT : String → String) (now : Int)
    (access_token new_raw : String) (db : DB) (raw : String)
    (h : db.refresh_tokens.find? (redeemableRow (hashRT raw) now) = none) :
    refresh_token hashRT now access_token new_raw db raw =
      .error (.Unauthorized "Invalid refresh token") := by
  simp [refresh_token, h]

/-- C2: if every stored row carrying the presented token's hash has
`expires_at` in the past — whatever its `revoked` flag — the refresh
endpoint fails with `Unauthorized` and returns no new tokens (an error
leaves the store untouched: the handler's only writes happen after a
successful lookup). -/
theorem refresh_expired_unauthorized
    (hashRT : String → String) (now : Int) (access_token new_raw : String)
    (db : DB) (raw : String)
    (hexp : ∀ r ∈ db.refresh_tokens, r.token_hash = hashRT raw →
      r.expires_at ≤ now) :
    refresh_token hashRT now access_token new_raw db raw =
      .error (.Unauthorized "Invalid refresh token") := by
  have hnone : db.refresh_tokens.find? (redeemableRow (hashRT raw) now) = none := by
    rw [List.find?_eq_none]
    intro r hr hpred
    rcases redeemableRow_eq_true.mp hpred with ⟨hh, _, hlt⟩
    exact absurd (hexp r hr hh) (by omega)
  simp [refresh_token, hnone]

/-- Witness for C2: a store holding an expired, unrevoked row for the
presented token. -/
theorem refresh_expired_unauthorized_witness :
    (∀ r ∈ (⟨[⟨1, "alice", "a@x.com", none, none, false, none, none, none, none, none⟩],
        [], [⟨0, 1, "h-tok", 50, false⟩], 1⟩ : DB).refresh_tokens,
      r.token_hash = (fun _ : String => "h-tok") "tok" → r.expires_at ≤ 100) ∧
    refresh_token (fun _ => "h-tok") 100 "at" "new" ⟨[⟨1, "alice", "a@x.com", none, none, false, none, none, none, none, none⟩], [], [⟨0, 1, "h-tok", 50, false⟩], 1⟩ "tok" =
      .error (.Unauthorized "Invalid refresh token") := by
  constructor
  · decide
  · exact refresh_expired_unauthorized (fun _ => "h-tok") 100 "at" "new"
      ⟨[⟨1, "alice", "a@x.com", none, none, false, none, none, none, none, none⟩], [], [⟨0, 1, "h-tok", 50, false⟩], 1⟩ "tok" (by decide)

/-- C6: with a valid email shape and a working email transport,
`request_password_reset` answers the identical success message whether or
not a user with the email exists, and when none exists it leaves the store
completely unchanged — no reset token is created and no user row is
modified, so the two runs are indistinguishable to the caller. -/
theorem request_password_reset_anti_enumeration
    (now : Int) (reset_token : String) (reset_hours : Int)
    (db dbU : DB) (email : String)
    (hno : ∀ u ∈ db.users, u.email ≠ email)
    (hyes : ∃ u ∈ dbU.users, u.email = email) :
    request_password_reset true true now reset_token reset_hours db email =
      (.ok "パスワードリセット用のメールを送信しました。メールに記載されたリンクからパスワードを再設定してください。", db) ∧
    (request_password_reset true true now reset_token reset_hours dbU email).1 =
      .ok "パスワードリセット用のメールを送信しました。メールに記載されたリンクからパスワードを再設定してください。" := by
  constructor
  · have hnone : db.users.find? (fun u => u.email == email) = none := by
      rw [List.find?_eq_none]
      intro u hu
      simp [hno u hu]
    simp [request_password_reset, hnone]
  · rcases hyes with ⟨u0, hu0, he0⟩
    rcases hfind : dbU.users.find? (fun u => u.email == email) with _ | u
    · exact absurd (List.find?_eq_none.mp hfind u0 hu0) (by simp [he0])
    · simp [request_password_reset, hfind]

/-- Witness for C6: an empty store versus a one-user store holding the
requested email. -/
theorem request_password_reset_anti_enumeration_witness :
    (∀ u ∈ (⟨[], [], [], 0⟩ : DB).users, u.email ≠ "a@x.com") ∧
    (∃ u ∈ (⟨[⟨1, "alice", "a@x.com", none, none, false, none, none, none, none, none⟩], [], [], 0⟩ : DB).users,
      u.email = "a@x.com") ∧
    (request_password_reset true true 0 "rtok" 1 ⟨[], [], [], 0⟩ "a@x.com" =
      (.ok "パスワードリセット用のメールを送信しました。メールに記載されたリンクからパスワードを再設定してください。", ⟨[], [], [], 0⟩) ∧
    (request_password_reset true true 0 "rtok" 1
        ⟨[⟨1, "alice", "a@x.com", none, none, false, none, none, none, none, none⟩], [], [], 0⟩ "a@x.com").1 =
      .ok "パスワードリセット用のメールを送信しました。メールに記載されたリンクからパスワードを再設定してください。") :=
  ⟨by decide, by decide,
   request_password_reset_anti_enumeration 0 "rtok" 1 ⟨[], [], [], 0⟩
     ⟨[⟨1, "alice", "a@x.com", none, none, false, none, none, none, none, none⟩], [], [], 0⟩
     "a@x.com" (by decide) (by decide)⟩

/-- C1: refresh tokens are single-use.  If redeeming a raw token `raw`
succeeds — marking the matched row revoked and inserting a replacement —
then redeeming the same `raw` against the resulting store fails with
`Unauthorized`, at any later time and whatever fresh values the second call
draws.  The hypotheses state the store's working assumptions: rows carrying
the presented token's hash agree on their id (token hashes do not collide
across rows), and the fresh replacement token's hash differs from the
presented one's. -/
theorem refresh_single_use
    (hashRT : String → String) (now : Int) (access_token new_raw : String)
    (db : DB) (raw : String) (out : AuthResponse × DB)
    (huniq : ∀ r1 ∈ db.refresh_tokens, ∀ r2 ∈ db.refresh_tokens,
      r1.token_hash = hashRT raw → r2.token_hash = hashRT raw → r1.id = r2.id)
    (hfresh : hashRT new_raw ≠ hashRT raw)
    (hok : refresh_token hashRT now access_token new_raw db raw = .ok out) :
    ∀ now2 access2 new2,
      refresh_token hashRT now2 access2 new2 out.2 raw =
        .error (.Unauthorized "Invalid refresh token") := by
  intro now2 access2 new2
  rcases hfind : db.refresh_tokens.find? (redeemableRow (hashRT raw) now) with _ | rt
  · simp [refresh_token, hfind] at hok
  rcases huser : db.users.find? (fun u => u.id == rt.user_id) with _ | user
  · simp [refresh_token, hfind, huser] at hok
  have hrt_mem : rt ∈ db.refresh_tokens := List.mem_of_find?_eq_some hfind
  rcases redeemableRow_eq_true.mp (List.find?_some hfind) with ⟨hrth, _, _⟩
  have hX : refresh_token hashRT now access_token new_raw db raw =
      .ok ({ access_token := access_token, refresh_token := new_raw,
             token_type := "Bearer", expires_in := 900, user := userInfoOf user },
           { users := db.users, credentials := db.credentials,
             refresh_tokens := (db.refresh_tokens.map fun r =>
               if r.id == rt.id then { r with revoked := true } else r) ++
               [{ id := db.next_rt_id, user_id := user.id,
                  token_hash := hashRT new_raw,
                  expires_at := now + 7 * 86400, revoked := false }],
             next_rt_id := db.next_rt_id + 1 }) := by
    simp only [refresh_token, hfind, huser]
  rw [hX] at hok
  injection hok with hout
  subst hout
  apply refresh_token_err
  show ((db.refresh_tokens.map fun r : RefreshTokenRow =>
      if r.id == rt.id then { r with revoked := true } else r) ++
      [({ id := db.next_rt_id, user_id := user.id, token_hash := hashRT new_raw,
          expires_at := now + 7 * 86400, revoked := false } : RefreshTokenRow)]).find?
        (redeemableRow (hashRT raw) now2) = none
  rw [List.find?_eq_none]
  intro r hr hpred
  rcases redeemableRow_eq_true.mp hpred with ⟨hh, hrev, _⟩
  rcases List.mem_append.mp hr with hmap | hnew
  · rcases List.mem_map.mp hmap with ⟨r0, hr0, hfr0⟩
    by_cases hid : r0.id = rt.id
    · rw [← hfr0] at hrev
      simp [hid] at hrev
    · rw [← hfr0] at hh
      simp [hid] at hh
      exact hid (huniq r0 hr0 rt hrt_mem hh hrth)
  · simp at hnew
    rw [hnew] at hh
    exact hfresh hh

/-- Witness for C1: one user, one live row; the redemption succeeds with
the stated output, and the repeat redemption is rejected. -/
theorem refresh_single_use_witness :
    refresh_token (fun t => t) 0 "at" "new"
      ⟨[⟨1, "alice", "a@x.com", none, none, false, none, none, none, none, none⟩],
       [], [⟨0, 1, "tok", 1000, false⟩], 1⟩ "tok" =
      .ok (⟨"at", "new", "Bearer", 900, ⟨1, "alice", "a@x.com", none, none, false⟩⟩,
           ⟨[⟨1, "alice", "a@x.com", none, none, false, none, none, none, none, none⟩],
            [], [⟨0, 1, "tok", 1000, true⟩, ⟨1, 1, "new", 604800, false⟩], 2⟩) ∧
    refresh_token (fun t => t) 0 "at2" "new2"
      ⟨[⟨1, "alice", "a@x.com", none, none, false, none, none, none, none, none⟩],
       [], [⟨0, 1, "tok", 1000, true⟩, ⟨1, 1, "new", 604800, false⟩], 2⟩ "tok" =
      .error (.Unauthorized "Invalid refresh token") := by
  refine ⟨rfl, ?_⟩
  exact refresh_single_use (fun t => t) 0 "at" "new"
    ⟨[⟨1, "alice", "a@x.com", none, none, false, none, none, none, none, none⟩],
     [], [⟨0, 1, "tok", 1000, false⟩], 1⟩ "tok"
    (⟨"at", "new", "Bearer", 900, ⟨1, "alice", "a@x.com", none, none, false⟩⟩,
     ⟨[⟨1, "alice", "a@x.com", none, none, false, none, none, none, none, none⟩],
      [], [⟨0, 1, "tok", 1000, true⟩, ⟨1, 1, "new", 604800, false⟩], 2⟩)
    (by decide) (by decide) rfl 0 "at2" "new2"

/-- Unfolding the verification-consume row filter. -/
theorem verifMatches_eq_true {token : String} {now : Int} {u : UserRow} :
    verifMatches token now u = true ↔
      u.verification_token = some token ∧
      (∃ e, u.verification_token_expires_at = some e ∧ now < e) ∧
      u.email_verified_at = none := by
  unfold verifMatches
  rcases he : u.verification_token_expires_at with _ | e <;>
    simp [he, Bool.and_eq_true, and_assoc]

/-- Unfolding the reset-token row filter. -/
theorem resetMatches_eq_true {token : String} {now : Int} {u : UserRow} :
    resetMatches token now u = true ↔
      u.password_reset_token = some token ∧
      (∃ e, u.password_reset_token_expires_at = some e ∧ now < e) := by
  unfold resetMatches
  rcases he : u.password_reset_token_expires_at with _ | e <;>
    simp [he, Bool.and_eq_true]

/-- The verification consume rejects with `BadRequest` whenever the lookup
finds no matching row. -/
theorem verify_email_consume_err (now : Int) (db : DB) (token : String)
    (h : db.users.find? (verifMatches token now) = none) :
    (verify_email_consume now db token).1 =
      .error (.BadRequest "無効または期限切れの検証トークンです") := by
  simp [verify_email_consume, h]

/-- The reset handler rejects with `BadRequest` whenever the token lookup
finds no matching row. -/
theorem reset_password_err (digest : String → String → String) (now : Int)
    (salt : String) (db : DB) (token npw : String)
    (h : db.users.find? (resetMatches token now) = none) :
    (reset_password digest true now salt db token npw).1 =
      .error (.BadRequest "無効または期限切れのリセットトークンです") := by
  simp [reset_password, verify_reset_token, h]

/-- C5: out-of-band tokens are single-use.  For both flows: a token
matching no row (wrong, expired, or already consumed) fails with
`BadRequest`; a successful consume clears the token field and its expiry on
the user row (for verification additionally setting `email_verified = true`
and `email_verified_at = now`) and returns that user's id; and a second
consume of the same token — at any later time — fails with `BadRequest`.
The hypotheses state that distinct user rows never carry the same token
value. -/
theorem oob_token_single_use
    (now now2 : Int) (db : DB) (token : String)
    (digest : String → String → String) (salt npw : String)
    (hvuniq : ∀ u1 ∈ db.users, ∀ u2 ∈ db.users,
      u1.verification_token = some token →
      u2.verification_token = some token → u1.id = u2.id)
    (hruniq : ∀ u1 ∈ db.users, ∀ u2 ∈ db.users,
      u1.password_reset_token = some token →
      u2.password_reset_token = some token → u1.id = u2.id) :
    ((∀ u ∈ db.users, verifMatches token now u = false) →
      (verify_email_consume now db token).1 =
        .error (.BadRequest "無効または期限切れの検証トークンです")) ∧
    (∀ uid db2, verify_email_consume now db token = (.ok uid, db2) →
      (∀ v ∈ db2.users, v.id = uid →
        v.verification_token = none ∧ v.verification_token_expires_at = none ∧
        v.email_verified = true ∧ v.email_verified_at = some now) ∧
      (verify_email_consume now2 db2 token).1 =
        .error (.BadRequest "無効または期限切れの検証トークンです")) ∧
    ((∀ u ∈ db.users, resetMatches token now u = false) →
      (reset_password digest true now salt db token npw).1 =
        .error (.BadRequest "無効または期限切れのリセットトークンです")) ∧
    (∀ msg db2, reset_password digest true now salt db token npw = (.ok msg, db2) →
      (∃ uid, verify_reset_token now db token = .ok uid ∧
        ∀ v ∈ db2.users, v.id = uid →
          v.password_reset_token = none ∧
          v.password_reset_token_expires_at = none) ∧
      (reset_password digest true now2 salt db2 token npw).1 =
        .error (.BadRequest "無効または期限切れのリセットトークンです")) := by
  refine ⟨?_, ?_, ?_, ?_⟩
  · intro h
    exact verify_email_consume_err now db token
      (List.find?_eq_none.mpr (fun u hu => by simp [h u hu]))
  · intro uid db2 hok
    rcases hfind : db.users.find? (verifMatches token now) with _ | u
    · simp [verify_email_consume, hfind] at hok
    have hu_mem : u ∈ db.users := List.mem_of_find?_eq_some hfind
    have hu_tok : u.verification_token = some token :=
      (verifMatches_eq_true.mp (List.find?_some hfind)).1
    have hX : verify_email_consume now db token =
        (.ok u.id, { db with users := db.users.map fun v =>
          if v.id == u.id then
            { v with email_verified_at := some now, email_verified := true,
                     verification_token := none,
                     verification_token_expires_at := none }
          else v }) := by
      simp only [verify_email_consume, hfind]
    rw [hX] at hok
    injection hok with h1 h2
    injection h1 with h1
    subst h1
    subst h2
    constructor
    · intro v hv hvid
      rcases List.mem_map.mp (by simpa using hv) with ⟨v0, hv0, hgv0⟩
      by_cases hid : v0.id = u.id
      · rw [← hgv0]
        simp [hid]
      · rw [← hgv0] at hvid
        simp [hid] at hvid
    · have hnone2 : (db.users.map fun v =>
          if v.id == u.id then
            { v with email_verified_at := some now, email_verified := true,
                     verification_token := none,
                     verification_token_expires_at := none }
          else v).find? (verifMatches token now2) = none := by
        rw [List.find?_eq_none]
        intro v hv hpred
        rcases List.mem_map.mp hv with ⟨v0, hv0, hgv0⟩
        have hvt := (verifMatches_eq_true.mp hpred).1
        by_cases hid : v0.id = u.id
        · rw [← hgv0] at hvt
          simp [hid] at hvt
        · rw [← hgv0] at hvt
          simp [hid] at hvt
          exact hid (hvuniq v0 hv0 u hu_mem hvt hu_tok)
      exact verify_email_consume_err now2 _ token hnone2
  · intro h
    exact reset_password_err digest now salt db token npw
      (List.find?_eq_none.mpr (fun u hu => by simp [h u hu]))
  · intro msg db2 hok
    rcases hfind : db.users.find? (resetMatches token now) with _ | u
    · simp [reset_password, verify_reset_token, hfind] at hok
    have hu_mem : u ∈ db.users := List.mem_of_find?_eq_some hfind
    have hu_tok : u.password_reset_token = some token :=
      (resetMatches_eq_true.mp (List.find?_some hfind)).1
    have hX : reset_password digest true now salt db token npw =
        (.ok "パスワードが正常にリセットされました。新しいパスワードでログインしてください。",
         { db with
           users := db.users.map fun v =>
             if v.id == u.id then
               { v with password_reset_token := none,
                        password_reset_token_expires_at := none }
             else v,
           credentials := db.credentials.map fun c =>
             if c.user_id == u.id then
               { c with password_hash := StoredHash.phc salt (digest npw salt),
                        salt := salt }
             else c }) := by
      simp [reset_password, verify_reset_token, hfind, hash_password]
    rw [hX] at hok
    injection hok with h1 h2
    subst h2
    constructor
    · refine ⟨u.id, by simp only [verify_reset_token, hfind], ?_⟩
      intro v hv hvid
      rcases List.mem_map.mp (by simpa using hv) with ⟨v0, hv0, hgv0⟩
      by_cases hid : v0.id = u.id
      · rw [← hgv0]
        simp [hid]
      · rw [← hgv0] at hvid
        simp [hid] at hvid
    · have hnone2 : (db.users.map fun v =>
          if v.id == u.id then
            { v with password_reset_token := none,
                     password_reset_token_expires_at := none }
          else v).find? (resetMatches token now2) = none := by
        rw [List.find?_eq_none]
        intro v hv hpred
        rcases List.mem_map.mp hv with ⟨v0, hv0, hgv0⟩
        have hvt := (resetMatches_eq_true.mp hpred).1
        by_cases hid : v0.id = u.id
        · rw [← hgv0] at hvt
          simp [hid] at hvt
        · rw [← hgv0] at hvt
          simp [hid] at hvt
          exact hid (hruniq v0 hv0 u hu_mem hvt hu_tok)
      exact reset_password_err digest now2 salt _ token npw hnone2

/-- Witness for C5: a store with one user holding verification and reset
tokens "t"; consuming the verification token succeeds once, and the second
consume is rejected. -/
theorem oob_token_single_use_witness :
    (∀ u1 ∈ (⟨[⟨1, "alice", "a@x.com", none, none, false, none, some "t", some 100, some "t", some 100⟩],
        [⟨1, .phc "s" "d", "s"⟩], [], 0⟩ : DB).users,
      ∀ u2 ∈ (⟨[⟨1, "alice", "a@x.com", none, none, false, none, some "t", some 100, some "t", some 100⟩],
        [⟨1, .phc "s" "d", "s"⟩], [], 0⟩ : DB).users,
      u1.verification_token = some "t" → u2.verification_token = some "t" → u1.id = u2.id) ∧
    (∀ u1 ∈ (⟨[⟨1, "alice", "a@x.com", none, none, false, none, some "t", some 100, some "t", some 100⟩],
        [⟨1, .phc "s" "d", "s"⟩], [], 0⟩ : DB).users,
      ∀ u2 ∈ (⟨[⟨1, "alice", "a@x.com", none, none, false, none, some "t", some 100, some "t", some 100⟩],
        [⟨1, .phc "s" "d", "s"⟩], [], 0⟩ : DB).users,
      u1.password_reset_token = some "t" → u2.password_reset_token = some "t" → u1.id = u2.id) ∧
    (verify_email_consume 5
      ⟨[⟨1, "alice", "a@x.com", none, none, true, some 0, none, none, some "t", some 100⟩],
       [⟨1, .phc "s" "d", "s"⟩], [], 0⟩ "t").1 =
      .error (.BadRequest "無効または期限切れの検証トークンです") :=
  ⟨by decide, by decide,
   ((oob_token_single_use 0 5
      ⟨[⟨1, "alice", "a@x.com", none, none, false, none, some "t", some 100, some "t", some 100⟩],
       [⟨1, .phc "s" "d", "s"⟩], [], 0⟩ "t" (fun p s => p ++ s) "s2" "newpassword1"
      (by decide) (by decide)).2.1 1
      ⟨[⟨1, "alice", "a@x.com", none, none, true, some 0, none, none, some "t", some 100⟩],
       [⟨1, .phc "s" "d", "s"⟩], [], 0⟩ rfl).2⟩

/-- Shape of `register` when only the refresh-token INSERT fails: the User
and Credential rows were already committed by the first transaction and the
verification token by the second, so the error leaves them in the store. -/
theorem register_rt_fail_eq (digest : String → String → String)
    (hashRT : String → String) (now : Int) (new_user_id : Nat)
    (salt verif_token access_token refresh_raw : String) (verif_hours : Int)
    (db : DB) (payload : RegisterRequest)
    (hnoconf : db.users.any
      (fun u => u.email == payload.email || u.username == payload.username) = false) :
    register digest hashRT ⟨false, false, false, true⟩ true now new_user_id
        salt verif_token access_token refresh_raw verif_hours db payload =
      (.error (.Database "refresh token insert failed"),
       { db with
         users := (db.users ++
           [({ id := new_user_id, username := payload.username,
               email := payload.email, display_name := payload.display_name,
               avatar_url := none, email_verified := false,
               email_verified_at := none, verification_token := none,
               verification_token_expires_at := none,
               password_reset_token := none,
               password_reset_token_expires_at := none } : UserRow)]).map fun u : UserRow =>
             if u.id == new_user_id then
               { u with verification_token := some verif_token,
                        verification_token_expires_at := some (now + verif_hours * 3600) }
             else u,
         credentials := db.credentials ++
           [{ user_id := new_user_id,
              password_hash := StoredHash.phc salt (digest payload.password salt),
              salt := salt }] }) := by
  simp [register, hnoconf, hash_password]

/-- Shape of `register` when every store statement succeeds. -/
theorem register_ok_eq (digest : String → String → String)
    (hashRT : String → String) (now : Int) (new_user_id : Nat)
    (salt verif_token access_token refresh_raw : String) (verif_hours : Int)
    (db : DB) (payload : RegisterRequest)
    (hnoconf : db.users.any
      (fun u => u.email == payload.email || u.username == payload.username) = false) :
    register digest hashRT ⟨false, false, false, false⟩ true now new_user_id
        salt verif_token access_token refresh_raw verif_hours db payload =
      (.ok (201, { access_token := access_token, refresh_token := refresh_raw,
                   token_type := "Bearer", expires_in := 900,
                   user := { id := new_user_id, username := payload.username,
                             email := payload.email,
                             display_name := payload.display_name,
                             avatar_url := none, email_verified := false } }),
       { db with
         users := (db.users ++
           [({ id := new_user_id, username := payload.username,
               email := payload.email, display_name := payload.display_name,
               avatar_url := none, email_verified := false,
               email_verified_at := none, verification_token := none,
               verification_token_expires_at := none,
               password_reset_token := none,
               password_reset_token_expires_at := none } : UserRow)]).map fun u : UserRow =>
             if u.id == new_user_id then
               { u with verification_token := some verif_token,
                        verification_token_expires_at := some (now + verif_hours * 3600) }
             else u,
         credentials := db.credentials ++
           [{ user_id := new_user_id,
              password_hash := StoredHash.phc salt (digest payload.password salt),
              salt := salt }],
         refresh_tokens := db.refresh_tokens ++
           [{ id := db.next_rt_id, user_id := new_user_id,
              token_hash := hashRT refresh_raw,
              expires_at := now + 7 * 86400, revoked := false }],
         next_rt_id := db.next_rt_id + 1 }) := by
  simp [register, hnoconf, hash_password, userInfoOf]

/-- Counterexample to C3: start from an empty store and let only the
refresh-token INSERT fail.  Registration reports an error, yet the User row
and the Credential row both exist afterwards — the three inserts are not
one commit-or-rollback unit, because the refresh-token INSERT runs on the
pool after the first transaction commits. -/
theorem register_not_single_transaction_cex :
    (register (fun p s => p ++ s) (fun t => t) ⟨false, false, false, true⟩
        true 0 1 "salt0" "vtok" "atok" "rtok" 24 ⟨[], [], [], 0⟩
        ⟨"alice01", "a@example.com", "password123", none⟩).1 =
      .error (.Database "refresh token insert failed") ∧
    (register (fun p s => p ++ s) (fun t => t) ⟨false, false, false, true⟩
        true 0 1 "salt0" "vtok" "atok" "rtok" 24 ⟨[], [], [], 0⟩
        ⟨"alice01", "a@example.com", "password123", none⟩).2.users.length = 1 ∧
    (register (fun p s => p ++ s) (fun t => t) ⟨false, false, false, true⟩
        true 0 1 "salt0" "vtok" "atok" "rtok" 24 ⟨[], [], [], 0⟩
        ⟨"alice01", "a@example.com", "password123", none⟩).2.credentials.length = 1 ∧
    (register (fun p s => p ++ s) (fun t => t) ⟨false, false, false, true⟩
        true 0 1 "salt0" "vtok" "atok" "rtok" 24 ⟨[], [], [], 0⟩
        ⟨"alice01", "a@example.com", "password123", none⟩).2.refresh_tokens = [] :=
  ⟨rfl, rfl, rfl, rfl⟩

/-- C3 amended: the User and Credential inserts share one transaction with
commit-or-rollback semantics — if either fails the store is unchanged — but
the first RefreshToken insert runs outside that transaction, after its
commit: a failure there returns an error while the User and Credential rows
remain; when every statement succeeds all three rows exist. -/
theorem register_tx_scope (digest : String → String → String)
    (hashRT : String → String) (f : RegFailures) (now : Int)
    (new_user_id : Nat) (salt verif_token access_token refresh_raw : String)
    (verif_hours : Int) (db : DB) (payload : RegisterRequest)
    (hnoconf : db.users.any
      (fun u => u.email == payload.email || u.username == payload.username) = false) :
    ((f.user_insert = true ∨ f.cred_insert = true) →
      (register digest hashRT f true now new_user_id salt verif_token
        access_token refresh_raw verif_hours db payload).2 = db) ∧
    (f = ⟨false, false, false, true⟩ →
      (register digest hashRT f true now new_user_id salt verif_token
        access_token refresh_raw verif_hours db payload).1 =
          .error (.Database "refresh token insert failed") ∧
      (∃ u ∈ (register digest hashRT f true now new_user_id salt verif_token
        access_token refresh_raw verif_hours db payload).2.users,
        u.id = new_user_id ∧ u.username = payload.username ∧ u.email = payload.email) ∧
      (∃ c ∈ (register digest hashRT f true now new_user_id salt verif_token
        access_token refresh_raw verif_hours db payload).2.credentials,
        c.user_id = new_user_id) ∧
      (register digest hashRT f true now new_user_id salt verif_token
        access_token refresh_raw verif_hours db payload).2.refresh_tokens =
          db.refresh_tokens) ∧
    (f = ⟨false, false, false, false⟩ →
      (∃ resp, (register digest hashRT f true now new_user_id salt verif_token
        access_token refresh_raw verif_hours db payload).1 = .ok (201, resp)) ∧
      (∃ u ∈ (register digest hashRT f true now new_user_id salt verif_token
        access_token refresh_raw verif_hours db payload).2.users,
        u.id = new_user_id ∧ u.username = payload.username ∧ u.email = payload.email) ∧
      (∃ c ∈ (register digest hashRT f true now new_user_id salt verif_token
        access_token refresh_raw verif_hours db payload).2.credentials,
        c.user_id = new_user_id) ∧
      (∃ r ∈ (register digest hashRT f true now new_user_id salt verif_token
        access_token refresh_raw verif_hours db payload).2.refresh_tokens,
        r.user_id = new_user_id ∧ r.token_hash = hashRT refresh_raw)) := by
  refine ⟨?_, ?_, ?_⟩
  · intro h
    rcases h with h | h
    · simp [register, hnoconf, h]
    · rcases hfu : f.user_insert with _ | _
      · simp [register, hnoconf, hfu, h]
      · simp [register, hnoconf, hfu]
  · intro hf
    subst hf
    rw [register_rt_fail_eq digest hashRT now new_user_id salt verif_token
      access_token refresh_raw verif_hours db payload hnoconf]
    refine ⟨rfl, ?_, ?_, rfl⟩
    · refine ⟨_, List.mem_map.mpr
        ⟨_, List.mem_append_right _ (List.mem_singleton.mpr rfl), rfl⟩, ?_⟩
      simp
    · exact ⟨_, List.mem_append_right _ (List.mem_singleton.mpr rfl), rfl⟩
  · intro hf
    subst hf
    rw [register_ok_eq digest hashRT now new_user_id salt verif_token
      access_token refresh_raw verif_hours db payload hnoconf]
    refine ⟨⟨_, rfl⟩, ?_, ?_, ?_⟩
    · refine ⟨_, List.mem_map.mpr
        ⟨_, List.mem_append_right _ (List.mem_singleton.mpr rfl), rfl⟩, ?_⟩
      simp
    · exact ⟨_, List.mem_append_right _ (List.mem_singleton.mpr rfl), rfl⟩
    · exact ⟨_, List.mem_append_right _ (List.mem_singleton.mpr rfl), ⟨rfl, rfl⟩⟩

/-- Witness for C3's amended statement: empty store, concrete inputs. -/
theorem register_tx_scope_witness :
    ((⟨[], [], [], 0⟩ : DB).users.any
      (fun u => u.email == "a@example.com" || u.username == "alice01") = false) ∧
    ((RegFailures.mk false false false true = ⟨false, false, false, true⟩) →
      (register (fun p s => p ++ s) (fun t => t) ⟨false, false, false, true⟩
        true 0 1 "salt0" "vtok" "atok" "rtok" 24 ⟨[], [], [], 0⟩
        ⟨"alice01", "a@example.com", "password123", none⟩).1 =
          .error (.Database "refresh token insert failed")) := by
  refine ⟨by decide, fun _ => ?_⟩
  exact ((register_tx_scope (fun p s => p ++ s) (fun t => t)
    ⟨false, false, false, true⟩ 0 1 "salt0" "vtok" "atok" "rtok" 24
    ⟨[], [], [], 0⟩ ⟨"alice01", "a@example.com", "password123", none⟩
    (by decide)).2.1 rfl).1

/-- Counterexample to C8: with the same user and login request, a malformed
stored hash surfaces `AppError::Argon2` — shown to the client as 500
"Password hashing error" — while a wrong password surfaces `Unauthorized`,
shown as 401 "Invalid credentials".  The two responses differ, so the
corrupt-data case IS distinguishable from the wrong-password case. -/
theorem login_malformed_vs_wrong_password_cex :
    (login (fun p _ => p) (fun t => t) true 0 "at" "rt"
        ⟨[⟨1, "alice", "a@x.com", none, none, false, none, none, none, none, none⟩],
         [⟨1, .malformed "xx", "s"⟩], [], 0⟩ ⟨"a@x.com", "pw"⟩).1 =
      .error (.Argon2 "invalid password hash encoding") ∧
    (login (fun p _ => p) (fun t => t) true 0 "at" "rt"
        ⟨[⟨1, "alice", "a@x.com", none, none, false, none, none, none, none, none⟩],
         [⟨1, .phc "s" "d", "s"⟩], [], 0⟩ ⟨"a@x.com", "pw"⟩).1 =
      .error (.Unauthorized "Invalid credentials") ∧
    errorResponse (.Argon2 "invalid password hash encoding") ≠
      errorResponse (.Unauthorized "Invalid credentials") :=
  ⟨rfl, rfl, by decide⟩

/-- C8 amended: during login, a stored hash that fails to parse surfaces as
the internal `AppError::Argon2` class, shown to the client as the generic
500 "Password hashing error" (leaking neither the stored data nor the
parse reason), while a wrong password yields 401 "Invalid credentials";
the two client-visible responses are distinct, not a single class. -/
theorem login_malformed_hash_vs_wrong_password
    (digest : String → String → String) (hashRT : String → String)
    (now : Int) (access_token refresh_raw : String)
    (db : DB) (payload : LoginRequest) (user : UserRow) (cred : CredentialRow)
    (hu : db.users.find? (fun u => u.email == payload.email) = some user)
    (hc : db.credentials.find? (fun c => c.user_id == user.id) = some cred) :
    (∀ raw, cred.password_hash = .malformed raw →
      (login digest hashRT true now access_token refresh_raw db payload).1 =
        .error (.Argon2 "invalid password hash encoding") ∧
      errorResponse (.Argon2 "invalid password hash encoding") =
        (500, "Password hashing error")) ∧
    (∀ s dg, cred.password_hash = .phc s dg → digest payload.password s ≠ dg →
      (login digest hashRT true now access_token refresh_raw db payload).1 =
        .error (.Unauthorized "Invalid credentials") ∧
      errorResponse (.Unauthorized "Invalid credentials") =
        (401, "Invalid credentials")) ∧
    (500, "Password hashing error") ≠ ((401 : Nat), "Invalid credentials") := by
  refine ⟨?_, ?_, by decide⟩
  · intro raw hm
    refine ⟨?_, rfl⟩
    simp [login, hu, hc, verify_password, hm]
  · intro s dg hp hne
    refine ⟨?_, rfl⟩
    have hb : (digest payload.password s == dg) = false := by simp [hne]
    simp [login, hu, hc, verify_password, hp, hb]

/-- Witness for C8's amended statement: one user whose stored hash is the
unparseable string "xx". -/
theorem login_malformed_hash_vs_wrong_password_witness :
    ((⟨[⟨1, "alice", "a@x.com", none, none, false, none, none, none, none, none⟩],
        [⟨1, .malformed "xx", "s"⟩], [], 0⟩ : DB).users.find?
      (fun u => u.email == "a@x.com") =
        some ⟨1, "alice", "a@x.com", none, none, false, none, none, none, none, none⟩) ∧
    ((⟨[⟨1, "alice", "a@x.com", none, none, false, none, none, none, none, none⟩],
        [⟨1, .malformed "xx", "s"⟩], [], 0⟩ : DB).credentials.find?
      (fun c => c.user_id == 1) = some ⟨1, .malformed "xx", "s"⟩) ∧
    (login (fun p _ => p) (fun t => t) true 0 "at" "rt"
        ⟨[⟨1, "alice", "a@x.com", none, none, false, none, none, none, none, none⟩],
         [⟨1, .malformed "xx", "s"⟩], [], 0⟩ ⟨"a@x.com", "pw"⟩).1 =
      .error (.Argon2 "invalid password hash encoding") :=
  ⟨rfl, rfl,
   ((login_malformed_hash_vs_wrong_password (fun p _ => p) (fun t => t) 0 "at" "rt"
      ⟨[⟨1, "alice", "a@x.com", none, none, false, none, none, none, none, none⟩],
       [⟨1, .malformed "xx", "s"⟩], [], 0⟩ ⟨"a@x.com", "pw"⟩
      ⟨1, "alice", "a@x.com", none, none, false, none, none, none, none, none⟩
      ⟨1, .malformed "xx", "s"⟩ rfl rfl).1 "xx" rfl).1⟩

end Minwada
